import Mathlib

/-!
Shallow embedding of `src/netflix_analysis.py` (a pandas exploratory-data-
analysis script) and proofs about its data-cleaning and aggregation pipeline.

Tables are lists of records; nullable CSV cells are `Option`s; the pandas
string operations used by the script (`str.strip`, `str.split`, `str.replace`,
`pd.to_datetime(..., errors=coerce)`, `pd.to_numeric(..., errors=coerce)`)
are embedded as executable functions on the underlying character lists.
-/

namespace NetflixAnalysis

/-- Calendar date as parsed from the `date_added` column: year, month number
(1 to 12) and day of month. -/
structure NLDate where
  year : Int
  month : Nat
  day : Nat
deriving DecidableEq, Repr

/-- One raw CSV row of the catalog. Columns that can be missing in the input
file are `Option`s; `type` and `release_year` are always present in the fixed
catalog schema (and the identifier/title columns ignored by processing are
omitted). -/
structure RawRecord where
  type : String
  director : Option String
  cast : Option String
  country : Option String
  date_added : Option String
  release_year : Int
  rating : Option String
  duration : Option String
  listed_in : Option String
deriving DecidableEq, Repr

/-- One row of the table returned by `load_and_clean_data`: the `date_added`
column now holds a parsed date (or null when parsing failed), and the derived
columns `year_added` and `month_added` have been added (lines 33 to 38 of the
source). -/
structure CleanedRecord where
  type : String
  director : Option String
  cast : Option String
  country : Option String
  date_added : Option NLDate
  release_year : Int
  rating : Option String
  duration : Option String
  listed_in : Option String
  year_added : Option Int
  month_added : Option String
deriving DecidableEq, Repr

/-! ### Embedded pandas string operations -/

/-- Python `str.strip()` on a character list: remove leading and trailing
whitespace. -/
def stripCS (l : List Char) : List Char :=
  ((l.dropWhile Char.isWhitespace).reverse.dropWhile Char.isWhitespace).reverse

/-- Pandas `Series.str.strip()` on one cell. -/
def str_strip (s : String) : String :=
  String.mk (stripCS s.data)

/-- Helper for the splitters: prepend a character to the first piece of a
split result (a split result is never empty, but the `[]` case keeps the
function total). -/
def consHead (c : Char) : List (List Char) → List (List Char)
  | [] => [[c]]
  | g :: gs => (c :: g) :: gs

/-- Python `split(", ")` on a character list: cut at every non-overlapping
occurrence of comma-space, scanning left to right. The empty string splits to
one empty piece, as in Python. -/
def splitCS : List Char → List (List Char)
  | [] => [[]]
  | ',' :: ' ' :: rest => [] :: splitCS rest
  | c :: rest => consHead c (splitCS rest)

/-- Python `split(" ")` on a character list. -/
def splitSpace : List Char → List (List Char)
  | [] => [[]]
  | ' ' :: rest => [] :: splitSpace rest
  | c :: rest => consHead c (splitSpace rest)

/-- Decimal-digit parse of a character list: all characters must be digits and
the list must be nonempty, else null. -/
def toNatCS (l : List Char) : Option Nat :=
  if l ≠ [] ∧ l.all Char.isDigit then
    some (l.foldl (fun n c => 10 * n + (c.toNat - 48)) 0)
  else none

/-- Models `pd.to_numeric(_, errors=coerce)` restricted to the nonnegative
integer literals that occur in this column: surrounding whitespace is
tolerated, anything else coerces to null. -/
def to_numeric (s : String) : Option Nat :=
  toNatCS (stripCS s.data)

/-- Full English month names, in calendar order. -/
def monthNames : List String :=
  ["January", "February", "March", "April", "May", "June",
   "July", "August", "September", "October", "November", "December"]

/-- Month number (1 to 12) of a full English month name, null otherwise. -/
def month_number (s : String) : Option Nat :=
  (monthNames.findIdx? (fun m => m == s)).map (· + 1)

/-- Models `Series.dt.month_name()`: the full English name of month number
`m`. -/
def month_name (m : Nat) : String :=
  monthNames.getD (m - 1) ""

/-- Models `pd.to_datetime(_, format=mixed, errors=coerce)` on the date
strings of this catalog, which are written like `September 25, 2021`: month
name, space, day, comma-space, year. Any string not of this shape fails to
parse, and failure is null (NaT), never an exception. The day is only
range-checked loosely (1 to 31). -/
def to_datetime (s : String) : Option NLDate :=
  match splitCS s.data with
  | [md, y] =>
    match splitSpace md with
    | [mon, d] =>
      match month_number (String.mk mon), toNatCS d, toNatCS y with
      | some m, some dn, some yn =>
        if 1 ≤ dn ∧ dn ≤ 31 then some ⟨(yn : Int), m, dn⟩ else none
      | _, _, _ => none
    | _ => none
  | _ => none

/-! ### Stage 1: `load_and_clean_data` (source lines 15 to 43; the CSV read
and the diagnostic prints are I/O and are not part of the returned data) -/

/-- Models `Series.fillna(value)` on one cell: replace a missing value with
`value`, keep a present value. -/
def fillna (v : Option String) (value : String) : Option String :=
  match v with
  | none => some value
  | some s => some s

/-- Source lines 25 to 27: fill missing `director`, `cast` and `country` with
the sentinel `Unknown`. No other column is touched. -/
def fillUnknown (r : RawRecord) : RawRecord :=
  { r with
    director := fillna r.director "Unknown"
    cast := fillna r.cast "Unknown"
    country := fillna r.country "Unknown" }

/-- Source line 30, `dropna(subset=[date_added, rating])`: a row is kept iff
both cells are present. -/
def keepRow (r : RawRecord) : Bool :=
  r.date_added.isSome && r.rating.isSome

/-- Source lines 33 to 38: strip the raw date string, parse it with coercion
of failures to null, then derive `year_added` (calendar year) and
`month_added` (full month name) from the parsed date. -/
def deriveRow (r : RawRecord) : CleanedRecord :=
  let d := (r.date_added.map str_strip).bind to_datetime
  { type := r.type
    director := r.director
    cast := r.cast
    country := r.country
    date_added := d
    release_year := r.release_year
    rating := r.rating
    duration := r.duration
    listed_in := r.listed_in
    year_added := d.map NLDate.year
    month_added := d.map (fun dt => month_name dt.month) }

/-- Source `load_and_clean_data`, lines 24 to 38: fill the three text columns,
drop rows missing `date_added` or `rating`, then parse dates and derive the
calendar features on the surviving rows. -/
def load_and_clean_data (rows : List RawRecord) : List CleanedRecord :=
  ((rows.map fillUnknown).filter keepRow).map deriveRow

/-! ### Derived views: `value_counts` and `groupby(...).size()` -/

/-- Helper for `firstOccs`: distinct values of the list that are not in
`seen`, in order of first occurrence. -/
def firstOccsAux {α : Type} [DecidableEq α] (seen : List α) : List α → List α
  | [] => []
  | a :: l => if a ∈ seen then firstOccsAux seen l else a :: firstOccsAux (a :: seen) l

/-- Distinct values of a list, in order of first occurrence. -/
def firstOccs {α : Type} [DecidableEq α] (l : List α) : List α :=
  firstOccsAux [] l

/-- Descending-count order on (value, count) pairs. -/
def countDesc {α : Type} (a b : α × Nat) : Prop := b.2 ≤ a.2

instance {α : Type} : DecidableRel (countDesc (α := α)) :=
  fun a b => Nat.decLe b.2 a.2

instance {α : Type} : IsTotal (α × Nat) countDesc :=
  ⟨fun a b => Nat.le_total b.2 a.2⟩

instance {α : Type} : IsTrans (α × Nat) countDesc :=
  ⟨fun _ _ _ h1 h2 => Nat.le_trans h2 h1⟩

/-- Models `Series.value_counts()`: each distinct value paired with its number
of occurrences, sorted by count descending; ties keep first-occurrence order
(insertion sort is stable). -/
def value_counts {α : Type} [DecidableEq α] (l : List α) : List (α × Nat) :=
  List.insertionSort countDesc ((firstOccs l).map (fun v => (v, l.count v)))

/-- Models `groupby(keys).size()` on a key list with no nulls: distinct keys
in ascending order, each with its group size (pandas sorts group keys). -/
def groupby_size (ys : List Int) : List (Int × Nat) :=
  (List.insertionSort (fun a b => a ≤ b) (firstOccs ys)).map (fun y => (y, ys.count y))

/-! ### Stage 2: `analyze_movies_vs_tv_shows` (source lines 45 to 55) -/

/-- Source line 48, the printed report of stage 2:
`df[type].value_counts()`. -/
def analyze_movies_vs_tv_shows (df : List CleanedRecord) : List (String × Nat) :=
  value_counts (df.map (fun r => r.type))

/-! ### Stage 3: `analyze_content_growth` (source lines 57 to 68) -/

/-- Source line 60, the aggregate behind the stage-3 chart:
`df.groupby(year_added).size()`. Pandas `groupby` drops null keys, so records
with a null `year_added` are excluded before grouping. -/
def analyze_content_growth (df : List CleanedRecord) : List (Int × Nat) :=
  groupby_size (df.filterMap (fun r => r.year_added))

/-! ### Stage 4: `identify_top_genres` (source lines 70 to 84) -/

/-- Per-record genre contributions, source line 74: `listed_in` split on
comma-space. A null cell contributes nothing: `str.split` keeps the NaN and
`stack()` then drops it. -/
def genresOf (r : CleanedRecord) : List String :=
  match r.listed_in with
  | none => []
  | some s => (splitCS s.data).map String.mk

/-- The stacked genre column: one entry per (record, listed genre) pair. -/
def genre_contribs (df : List CleanedRecord) : List String :=
  df.flatMap genresOf

/-- Source line 74, the full per-genre counts of stage 4 (the printed report
and the chart use `head(10)` of this). -/
def identify_top_genres (df : List CleanedRecord) : List (String × Nat) :=
  value_counts (genre_contribs df)

/-- Sum of all per-genre counts of stage 4. -/
def genre_count_sum (df : List CleanedRecord) : Nat :=
  ((identify_top_genres df).map Prod.snd).sum

/-! ### Stage 5: `analyze_runtime` (source lines 86 to 103) -/

/-- Python `str.replace(" min", "")` on a character list: remove every
non-overlapping occurrence of the four characters space-m-i-n, scanning left
to right. -/
def replaceMinCS : List Char → List Char
  | [] => []
  | ' ' :: 'm' :: 'i' :: 'n' :: rest => replaceMinCS rest
  | c :: rest => c :: replaceMinCS rest

/-- Source line 95, `Series.str.replace(" min", "", regex=False)` on one
cell: removes every occurrence of the substring, not only a trailing one. -/
def str_replace_min (s : String) : String :=
  String.mk (replaceMinCS s.data)

/-- Source `analyze_runtime`, lines 90 to 99: restrict to rows whose type is
`Movie`, remove the `" min"` text from `duration`, convert with coercion of
failures to null, then `dropna()` gives the plotted distribution. -/
def analyze_runtime (df : List CleanedRecord) : List Nat :=
  let movies := df.filter (fun r => r.type == "Movie")
  let duration_min := movies.map (fun r =>
    (r.duration.map str_replace_min).bind to_numeric)
  duration_min.filterMap id

/-- Strip one trailing `" min"` suffix, if present, else leave the list
unchanged. -/
def stripTrailingMinCS (l : List Char) : List Char :=
  if l.reverse.take 4 = ['n', 'i', 'm', ' '] then l.take (l.length - 4) else l

/-- Follows the words of the spec (section 4.5): duration parsing strips a
single *trailing* `" min"` suffix before numeric conversion. To be compared
with `analyze_runtime`, whose `str.replace` removes every occurrence. -/
def spec_analyze_runtime (df : List CleanedRecord) : List Nat :=
  let movies := df.filter (fun r => r.type == "Movie")
  let duration_min := movies.map (fun r =>
    (r.duration.map (fun d => String.mk (stripTrailingMinCS d.data))).bind to_numeric)
  duration_min.filterMap id

/-! ### Stage 6: `analyze_release_years` (source lines 106 to 118) -/

/-- Source line 109, the printed report of stage 6:
`df[release_year].value_counts().head(10)`. -/
def analyze_release_years (df : List CleanedRecord) : List (Int × Nat) :=
  (value_counts (df.map (fun r => r.release_year))).take 10

/-! ### `main` (source lines 120 to 134) -/

/-- Failure kinds that can escape the loading step: Python
`FileNotFoundError` versus any other exception (carrying its description). -/
inductive PipelineError
  | fileNotFound
  | other (desc : String)
deriving DecidableEq, Repr

/-- The five chart files written by the five analysis stages, in stage
order. -/
def stage_artifacts : List String :=
  ["distribution_type.png", "content_growth.png", "top_genres.png",
   "movie_duration_dist.png", "top_release_years.png"]

/-- Source `main`, lines 120 to 134. The try block is modelled by matching on
the outcome of its one fallible step, loading (exceptions are the `Except`
error component). A successful load runs all five stages and prints the
completion message; the `except FileNotFoundError` arm prints a message
naming the path, the catch-all `except Exception` arm prints the error
description; both arms reach no stage, so no artifact is written. The result
pairs the printed messages with the artifacts written; an uncaught exception
would be `Except.error`. -/
def main_run (filepath : String)
    (loadResult : Except PipelineError (List RawRecord)) :
    Except PipelineError (List String × List String) :=
  match loadResult with
  | .ok _rows =>
    .ok (["Analysis complete. Plots saved as PNG files."], stage_artifacts)
  | .error .fileNotFound =>
    .ok (["Error: File not found at " ++ filepath], [])
  | .error (.other e) =>
    .ok (["An error occurred: " ++ e], [])

/-! ### Sample inputs used by witnesses and counterexamples -/

/-- Sample raw row: missing director, surrounding whitespace in the date
string, two genres, a movie duration. -/
def rawSample : RawRecord :=
  { type := "Movie"
    director := none
    cast := some "Actor A"
    country := some "India"
    date_added := some " September 25, 2021 "
    release_year := 2020
    rating := some "TV-MA"
    duration := some "90 min"
    listed_in := some "Comedy, Drama" }

/-- The cleaned row produced from `rawSample`. -/
def cleanedSample : CleanedRecord := deriveRow (fillUnknown rawSample)

/-- Sample raw row whose date string is present but unparseable: the row
survives the drop step, and parsing then coerces its date to null. -/
def badDateRaw : RawRecord :=
  { type := "Movie"
    director := some "Director D"
    cast := some "Actor B"
    country := some "US"
    date_added := some "not a date"
    release_year := 2019
    rating := some "PG-13"
    duration := some "100 min"
    listed_in := some "Dramas" }

/-- Sample cleaned row whose genre field is null. -/
def nullGenreRec : CleanedRecord :=
  { type := "TV Show"
    director := some "Unknown"
    cast := some "Unknown"
    country := some "Unknown"
    date_added := some ⟨2021, 9, 25⟩
    release_year := 2020
    rating := some "R"
    duration := some "2 Seasons"
    listed_in := none
    year_added := some 2021
    month_added := some "September" }

/-- Cleaned movie row with a given duration string. -/
def movieRow (d : String) : CleanedRecord :=
  { type := "Movie"
    director := some "Unknown"
    cast := some "Unknown"
    country := some "Unknown"
    date_added := none
    release_year := 2020
    rating := some "PG"
    duration := some d
    listed_in := some "Dramas"
    year_added := none
    month_added := none }

/-- Cleaned row with a given release year. -/
def yearRow (y : Int) : CleanedRecord :=
  { type := "Movie"
    director := some "Unknown"
    cast := some "Unknown"
    country := some "Unknown"
    date_added := none
    release_year := y
    rating := some "PG"
    duration := some "90 min"
    listed_in := some "Dramas"
    year_added := none
    month_added := none }

/-- Example table for the Top-N Ranker: 12 distinct release years, year
`2020 - k` occurring `12 - k` times, so all counts are distinct. -/
def exampleYears12 : List CleanedRecord :=
  (List.range 12).flatMap (fun k => List.replicate (12 - k) (yearRow (2020 - (k : Int))))

/-- The ten highest-count (year, count) pairs of `exampleYears12`, descending
by count: exactly the two lowest-count years (2010 and 2009) are excluded. -/
def expectedTop10 : List (Int × Nat) :=
  [(2020, 12), (2019, 11), (2018, 10), (2017, 9), (2016, 8),
   (2015, 7), (2014, 6), (2013, 5), (2012, 4), (2011, 3)]

/-! ### Lemmas about the derived-view machinery -/

theorem mem_firstOccsAux {α : Type} [DecidableEq α] {a : α} {seen l : List α} :
    a ∈ firstOccsAux seen l ↔ a ∈ l ∧ a ∉ seen := by
  induction l generalizing seen with
  | nil => simp [firstOccsAux]
  | cons b l ih =>
    simp only [firstOccsAux]
    by_cases hb : b ∈ seen
    · rw [if_pos hb, ih, List.mem_cons]
      constructor
      · rintro ⟨h1, h2⟩
        exact ⟨Or.inr h1, h2⟩
      · rintro ⟨h1 | h1, h2⟩
        · exact absurd (h1 ▸ hb) h2
        · exact ⟨h1, h2⟩
    · rw [if_neg hb, List.mem_cons, List.mem_cons, ih]
      constructor
      · rintro (rfl | ⟨h1, h2⟩)
        · exact ⟨Or.inl rfl, hb⟩
        · exact ⟨Or.inr h1, fun hs => h2 (List.mem_cons_of_mem _ hs)⟩
      · rintro ⟨h1 | h1, h2⟩
        · subst h1
          exact Or.inl rfl
        · by_cases hab : a = b
          · exact Or.inl hab
          · refine Or.inr ⟨h1, fun hs => ?_⟩
            rcases List.mem_cons.1 hs with h | h
            · exact hab h
            · exact h2 h

theorem nodup_firstOccsAux {α : Type} [DecidableEq α] (seen l : List α) :
    (firstOccsAux seen l).Nodup := by
  induction l generalizing seen with
  | nil => simp [firstOccsAux]
  | cons b l ih =>
    by_cases hb : b ∈ seen
    · simpa [firstOccsAux, hb] using ih seen
    · simp only [firstOccsAux, if_neg hb, List.nodup_cons]
      exact ⟨fun hmem => (mem_firstOccsAux.1 hmem).2 (List.mem_cons_self b seen), ih _⟩

theorem mem_firstOccs {α : Type} [DecidableEq α] {a : α} {l : List α} :
    a ∈ firstOccs l ↔ a ∈ l := by
  simp [firstOccs, mem_firstOccsAux]

theorem nodup_firstOccs {α : Type} [DecidableEq α] (l : List α) :
    (firstOccs l).Nodup :=
  nodup_firstOccsAux [] l

theorem firstOccs_perm_dedup {α : Type} [DecidableEq α] (l : List α) :
    (firstOccs l).Perm l.dedup :=
  (List.perm_ext_iff_of_nodup (nodup_firstOccs l) l.nodup_dedup).2
    (fun a => by simp [mem_firstOccs, List.mem_dedup])

theorem value_counts_perm {α : Type} [DecidableEq α] (l : List α) :
    (value_counts l).Perm ((firstOccs l).map (fun v => (v, l.count v))) :=
  List.perm_insertionSort _ _

theorem mem_value_counts {α : Type} [DecidableEq α] {l : List α} {v : α} {c : Nat} :
    (v, c) ∈ value_counts l ↔ v ∈ l ∧ c = l.count v := by
  rw [(value_counts_perm l).mem_iff]
  simp only [List.mem_map, mem_firstOccs, Prod.mk.injEq]
  constructor
  · rintro ⟨v', hv', rfl, rfl⟩
    exact ⟨hv', rfl⟩
  · rintro ⟨hv, rfl⟩
    exact ⟨v, hv, rfl, rfl⟩

theorem value_counts_length {α : Type} [DecidableEq α] (l : List α) :
    (value_counts l).length = l.dedup.length := by
  rw [(value_counts_perm l).length_eq, List.length_map,
    (firstOccs_perm_dedup l).length_eq]

theorem value_counts_sum {α : Type} [DecidableEq α] (l : List α) :
    ((value_counts l).map Prod.snd).sum = l.length := by
  rw [((value_counts_perm l).map Prod.snd).sum_eq, List.map_map]
  have h2 : ((firstOccs l).map (Prod.snd ∘ fun v => (v, l.count v))).sum
      = ((firstOccs l).map (fun v => l.count v)).sum := rfl
  rw [h2, ((firstOccs_perm_dedup l).map (fun v => l.count v)).sum_eq,
    List.sum_map_count_dedup_eq_length]

theorem value_counts_sorted {α : Type} [DecidableEq α] (l : List α) :
    (value_counts l).Sorted countDesc :=
  List.sorted_insertionSort countDesc _

theorem value_counts_keys_nodup {α : Type} [DecidableEq α] (l : List α) :
    ((value_counts l).map Prod.fst).Nodup := by
  rw [((value_counts_perm l).map Prod.fst).nodup_iff, List.map_map]
  have h : ((firstOccs l).map (Prod.fst ∘ fun v => (v, l.count v)))
      = firstOccs l := List.map_id _
  rw [h]
  exact nodup_firstOccs l

theorem mem_keys_value_counts {α : Type} [DecidableEq α] {l : List α} {y : α} :
    y ∈ (value_counts l).map Prod.fst ↔ y ∈ l := by
  simp only [List.mem_map]
  constructor
  · rintro ⟨⟨v, c⟩, hm, rfl⟩
    exact (mem_value_counts.1 hm).1
  · intro hy
    exact ⟨(y, l.count y), mem_value_counts.2 ⟨hy, rfl⟩, rfl⟩

theorem mem_groupby_size {ys : List Int} {y : Int} {c : Nat} :
    (y, c) ∈ groupby_size ys ↔ y ∈ ys ∧ c = ys.count y := by
  unfold groupby_size
  simp only [List.mem_map, List.mem_insertionSort, mem_firstOccs, Prod.mk.injEq]
  constructor
  · rintro ⟨y', hy', rfl, rfl⟩
    exact ⟨hy', rfl⟩
  · rintro ⟨hy, rfl⟩
    exact ⟨y, hy, rfl, rfl⟩

theorem groupby_size_keys_eq (ys : List Int) :
    (groupby_size ys).map Prod.fst
      = List.insertionSort (fun a b => a ≤ b) (firstOccs ys) := by
  unfold groupby_size
  rw [List.map_map]
  exact List.map_id _

theorem groupby_size_keys_sorted (ys : List Int) :
    ((groupby_size ys).map Prod.fst).Sorted (fun a b => a ≤ b) := by
  rw [groupby_size_keys_eq]
  exact List.sorted_insertionSort _ _

theorem groupby_size_keys_nodup (ys : List Int) :
    ((groupby_size ys).map Prod.fst).Nodup := by
  rw [groupby_size_keys_eq,
    (List.perm_insertionSort (fun a b => a ≤ b) (firstOccs ys)).nodup_iff]
  exact nodup_firstOccs ys

theorem groupby_size_sum (ys : List Int) :
    ((groupby_size ys).map Prod.snd).sum = ys.length := by
  unfold groupby_size
  rw [List.map_map]
  have h2 : ((List.insertionSort (fun a b => a ≤ b) (firstOccs ys)).map
      (Prod.snd ∘ fun y => (y, ys.count y))).sum
      = ((List.insertionSort (fun a b => a ≤ b) (firstOccs ys)).map
      (fun y => ys.count y)).sum := rfl
  rw [h2,
    ((List.perm_insertionSort (fun a b => a ≤ b) (firstOccs ys)).map
      (fun y => ys.count y)).sum_eq,
    ((firstOccs_perm_dedup ys).map (fun y => ys.count y)).sum_eq,
    List.sum_map_count_dedup_eq_length]

/-! ### Lemmas about the splitters and counting helpers -/

theorem consHead_ne_nil (c : Char) (L : List (List Char)) : consHead c L ≠ [] := by
  cases L <;> simp [consHead]

theorem splitCS_ne_nil (l : List Char) : splitCS l ≠ [] := by
  induction l using splitCS.induct with
  | case1 => simp [splitCS]
  | case2 rest ih => simp [splitCS]
  | case3 c rest h ih =>
    rw [splitCS.eq_def]
    split
    · simp
    · simp
    · exact consHead_ne_nil _ _

theorem one_le_length_genresOf {r : CleanedRecord} {s : String}
    (h : r.listed_in = some s) : 1 ≤ (genresOf r).length := by
  unfold genresOf
  rw [h]
  simp only [List.length_map]
  exact List.length_pos.2 (splitCS_ne_nil _)

theorem length_filterMap_eq_countP {α β : Type} (f : α → Option β) (l : List α) :
    (l.filterMap f).length = l.countP (fun a => (f a).isSome) := by
  induction l with
  | nil => rfl
  | cons a l ih =>
    cases hf : f a <;>
      simp [List.filterMap_cons, hf, List.countP_cons, ih]

theorem count_filterMap_eq_countP {α β : Type} [DecidableEq β]
    (f : α → Option β) (l : List α) (y : β) :
    (l.filterMap f).count y = l.countP (fun a => f a == some y) := by
  induction l with
  | nil => rfl
  | cons a l ih =>
    cases hf : f a with
    | none => simp [List.filterMap_cons, hf, List.countP_cons, ih]
    | some b =>
      by_cases hby : b = y <;>
        simp [List.filterMap_cons, hf, List.countP_cons, ih, List.count_cons, hby]

theorem length_le_sum_of_one_le {l : List Nat} (h : ∀ x ∈ l, 1 ≤ x) :
    l.length ≤ l.sum := by
  induction l with
  | nil => simp
  | cons a l ih =>
    have ha := h a (List.mem_cons_self a l)
    have hl := ih (fun x hx => h x (List.mem_cons_of_mem a hx))
    simp only [List.length_cons, List.sum_cons]
    omega

theorem sum_eq_length_iff_forall_one {l : List Nat} (h : ∀ x ∈ l, 1 ≤ x) :
    l.sum = l.length ↔ ∀ x ∈ l, x = 1 := by
  induction l with
  | nil => simp
  | cons a l ih =>
    have ha := h a (List.mem_cons_self a l)
    have hl : ∀ x ∈ l, 1 ≤ x := fun x hx => h x (List.mem_cons_of_mem a hx)
    have hlen := length_le_sum_of_one_le hl
    simp only [List.sum_cons, List.length_cons, List.forall_mem_cons]
    constructor
    · intro heq
      have ha1 : a = 1 := by omega
      have hsum : l.sum = l.length := by omega
      exact ⟨ha1, (ih hl).1 hsum⟩
    · rintro ⟨rfl, hall⟩
      rw [(ih hl).2 hall]
      omega

/-! ### Small facts about the cleaning primitives -/

theorem fillna_eq_getD (v : Option String) (x : String) :
    fillna v x = some (v.getD x) := by
  cases v <;> rfl

theorem fillna_ne_none (v : Option String) (x : String) :
    fillna v x ≠ none := by
  cases v <;> simp [fillna]

theorem keepRow_fillUnknown (r : RawRecord) :
    keepRow (fillUnknown r) = keepRow r := rfl

/-! ### Facts about `deriveRow` and the cleaned length -/

theorem deriveRow_date_added (r : RawRecord) :
    (deriveRow r).date_added = (r.date_added.map str_strip).bind to_datetime := rfl

theorem deriveRow_year_added (r : RawRecord) :
    (deriveRow r).year_added = (deriveRow r).date_added.map NLDate.year := rfl

theorem deriveRow_month_added (r : RawRecord) :
    (deriveRow r).month_added
      = (deriveRow r).date_added.map (fun dt => month_name dt.month) := rfl

/-- The number of cleaned rows depends only on which raw rows have both
`date_added` and `rating` present, never on whether a date parses. -/
theorem load_and_clean_length (rows : List RawRecord) :
    (load_and_clean_data rows).length
      = rows.countP (fun r => r.date_added.isSome && r.rating.isSome) := by
  unfold load_and_clean_data
  rw [List.length_map, ← List.countP_eq_length_filter, List.countP_map]
  rfl

/-! ### Facts about the genre splitter -/

/-- The sum of all per-genre counts is the total number of (record, listed
genre) contribution pairs. -/
theorem genre_count_sum_eq (df : List CleanedRecord) :
    genre_count_sum df = (df.map (fun r => (genresOf r).length)).sum := by
  unfold genre_count_sum identify_top_genres
  rw [value_counts_sum]
  unfold genre_contribs
  exact List.length_flatMap _ _

/-- Records with a null genre field contribute zero to the contribution sum:
restricting it to records with a present genre field changes nothing. -/
theorem genre_sum_filter_isSome (df : List CleanedRecord) :
    (df.map (fun r => (genresOf r).length)).sum
      = ((df.filter (fun r => r.listed_in.isSome)).map
          (fun r => (genresOf r).length)).sum := by
  induction df with
  | nil => rfl
  | cons r df ih =>
    cases hlr : r.listed_in with
    | none =>
      have h0 : genresOf r = [] := by unfold genresOf; rw [hlr]
      simp [List.filter_cons, hlr, h0, ih]
    | some s => simp [List.filter_cons, hlr, ih]

/-! ### Claim theorems -/

/-- C7: for every Cleaned Table, the Category Counter's per-category
frequency counts over the `type` column sum to the total row count of the
table, and the printed list is ordered by descending frequency. (The `type`
column of the fixed catalog schema is never null, so `value_counts` drops
nothing.) -/
theorem c7_category_counter (df : List CleanedRecord) :
    ((analyze_movies_vs_tv_shows df).map Prod.snd).sum = df.length ∧
    (analyze_movies_vs_tv_shows df).Sorted countDesc := by
  constructor
  · unfold analyze_movies_vs_tv_shows
    rw [value_counts_sum, List.length_map]
  · exact value_counts_sorted _

/-- C6: the Temporal Aggregator groups records by `year_added`, excluding
records with a null `year_added` from every group, counts records per year,
and orders the result by year ascending: the keys are sorted and duplicate
free, each count is the number of records carrying that year, exactly the
years occurring in some record appear, and the counts sum to the number of
records with a non-null `year_added` (so null rows are in no group). -/
theorem c6_temporal_aggregator (df : List CleanedRecord) :
    ((analyze_content_growth df).map Prod.fst).Sorted (fun a b => a ≤ b) ∧
    ((analyze_content_growth df).map Prod.fst).Nodup ∧
    (∀ p ∈ analyze_content_growth df,
      p.2 = df.countP (fun r => r.year_added == some p.1)) ∧
    (∀ y : Int, y ∈ (analyze_content_growth df).map Prod.fst ↔
      ∃ r ∈ df, r.year_added = some y) ∧
    ((analyze_content_growth df).map Prod.snd).sum
      = df.countP (fun r => r.year_added.isSome) := by
  refine ⟨groupby_size_keys_sorted _, groupby_size_keys_nodup _, ?_, ?_, ?_⟩
  · rintro ⟨y, c⟩ hp
    have h := (mem_groupby_size.1 hp).2
    simpa using h.trans (count_filterMap_eq_countP (fun r => r.year_added) df y)
  · intro y
    unfold analyze_content_growth
    rw [groupby_size_keys_eq]
    simp only [List.mem_insertionSort, mem_firstOccs, List.mem_filterMap]
  · unfold analyze_content_growth
    rw [groupby_size_sum, length_filterMap_eq_countP]

/-- C8: every record of the Cleaned Table has a non-null `director`, `cast`
and `country`; each of these three columns holds the raw value when it was
present and the literal sentinel `Unknown` when it was absent; and no other
column is filled: `type`, `release_year`, `rating`, `duration` and
`listed_in` pass through from the originating raw row unchanged. -/
theorem c8_unknown_fill (rows : List RawRecord) (c : CleanedRecord)
    (hc : c ∈ load_and_clean_data rows) :
    c.director ≠ none ∧ c.cast ≠ none ∧ c.country ≠ none ∧
    ∃ r ∈ rows,
      c.director = some (r.director.getD "Unknown") ∧
      c.cast = some (r.cast.getD "Unknown") ∧
      c.country = some (r.country.getD "Unknown") ∧
      c.type = r.type ∧ c.release_year = r.release_year ∧
      c.rating = r.rating ∧ c.duration = r.duration ∧
      c.listed_in = r.listed_in := by
  unfold load_and_clean_data at hc
  obtain ⟨r1, hr1, rfl⟩ := List.mem_map.1 hc
  obtain ⟨r, hr, rfl⟩ := List.mem_map.1 (List.mem_filter.1 hr1).1
  refine ⟨?_, ?_, ?_, r, hr, ?_, ?_, ?_, rfl, rfl, rfl, rfl, rfl⟩
  · exact fillna_ne_none r.director "Unknown"
  · exact fillna_ne_none r.cast "Unknown"
  · exact fillna_ne_none r.country "Unknown"
  · exact fillna_eq_getD r.director "Unknown"
  · exact fillna_eq_getD r.cast "Unknown"
  · exact fillna_eq_getD r.country "Unknown"

/-- Witness for C8 at the one-row table `[rawSample]`, whose director cell is
missing and is filled with `Unknown`. -/
theorem c8_unknown_fill_witness :
    cleanedSample ∈ load_and_clean_data [rawSample] ∧
    (cleanedSample.director ≠ none ∧ cleanedSample.cast ≠ none ∧
      cleanedSample.country ≠ none ∧
      ∃ r ∈ [rawSample],
        cleanedSample.director = some (r.director.getD "Unknown") ∧
        cleanedSample.cast = some (r.cast.getD "Unknown") ∧
        cleanedSample.country = some (r.country.getD "Unknown") ∧
        cleanedSample.type = r.type ∧
        cleanedSample.release_year = r.release_year ∧
        cleanedSample.rating = r.rating ∧
        cleanedSample.duration = r.duration ∧
        cleanedSample.listed_in = r.listed_in) :=
  ⟨by decide, c8_unknown_fill [rawSample] cleanedSample (by decide)⟩

/-- C1 counterexample: the claim says every record of the Cleaned Table has a
non-null `date_added`, but a raw row whose date string is present (so it
survives the drop) yet unparseable ends up in the cleaned table with
`date_added` null, because `to_datetime` coerces the failure after the drop
already happened. -/
theorem c1_counterexample :
    (load_and_clean_data [badDateRaw]).length = 1 ∧
    (load_and_clean_data [badDateRaw]).map (fun c => c.date_added) = [none] ∧
    ¬ (∀ c ∈ load_and_clean_data [badDateRaw], c.date_added ≠ none) := by
  decide

/-- C1 as amended: every record of the Cleaned Table has a non-null `rating`
and originates from a raw row with non-null raw `date_added` and `rating`;
the drop of violating rows happens before derived-feature computation, so
dropping them first changes nothing and no dropped row contributes to
`year_added` or `month_added` (each cleaned row is derived from its own kept
raw row); the parsed `date_added` itself may still be null when the raw
string fails to parse. -/
theorem c1_row_drop (rows : List RawRecord) (c : CleanedRecord)
    (hc : c ∈ load_and_clean_data rows) :
    c.rating ≠ none ∧
    (∃ r ∈ rows, r.date_added ≠ none ∧ r.rating ≠ none ∧
      c = deriveRow (fillUnknown r)) ∧
    load_and_clean_data rows
      = load_and_clean_data
          (rows.filter (fun r => r.date_added.isSome && r.rating.isSome)) ∧
    (load_and_clean_data rows).length
      = rows.countP (fun r => r.date_added.isSome && r.rating.isSome) := by
  unfold load_and_clean_data at hc
  obtain ⟨r1, hr1, rfl⟩ := List.mem_map.1 hc
  have hkeep := (List.mem_filter.1 hr1).2
  obtain ⟨r, hr, rfl⟩ := List.mem_map.1 (List.mem_filter.1 hr1).1
  rw [keepRow_fillUnknown] at hkeep
  unfold keepRow at hkeep
  rw [Bool.and_eq_true] at hkeep
  refine ⟨?_, ⟨r, hr, ?_, ?_, rfl⟩, ?_, load_and_clean_length rows⟩
  · obtain ⟨a, ha⟩ := Option.isSome_iff_exists.1 hkeep.2
    show r.rating ≠ none
    simp [ha]
  · obtain ⟨a, ha⟩ := Option.isSome_iff_exists.1 hkeep.1
    simp [ha]
  · obtain ⟨a, ha⟩ := Option.isSome_iff_exists.1 hkeep.2
    simp [ha]
  · show ((rows.map fillUnknown).filter keepRow).map deriveRow
      = (((rows.filter (fun r => r.date_added.isSome && r.rating.isSome)).map
          fillUnknown).filter keepRow).map deriveRow
    have hsub : (fun r : RawRecord => r.date_added.isSome && r.rating.isSome)
        = keepRow := rfl
    rw [hsub, List.filter_map, List.filter_map, List.filter_filter]
    have hcomp : (keepRow ∘ fillUnknown) = keepRow := rfl
    rw [hcomp]
    have hand : (fun a : RawRecord => keepRow a && keepRow a) = keepRow :=
      funext fun a => Bool.and_self (keepRow a)
    rw [hand]

/-- C2: for every record of the Cleaned Table, the date was parsed from the
whitespace-stripped raw string, a parse failure yields a null date without
raising and without dropping the row (the cleaned length only counts
presence of the raw fields), `year_added` is the calendar year of
`date_added`, `month_added` is its full month name, and both derived fields
are null exactly when `date_added` is null. -/
theorem c2_derived_date_features (rows : List RawRecord) (c : CleanedRecord)
    (hc : c ∈ load_and_clean_data rows) :
    c.year_added = c.date_added.map NLDate.year ∧
    c.month_added = c.date_added.map (fun dt => month_name dt.month) ∧
    (c.year_added = none ↔ c.date_added = none) ∧
    (c.month_added = none ↔ c.date_added = none) ∧
    (∃ r ∈ rows, ∃ s, r.date_added = some s ∧
      c.date_added = to_datetime (str_strip s)) ∧
    (load_and_clean_data rows).length
      = rows.countP (fun r => r.date_added.isSome && r.rating.isSome) := by
  unfold load_and_clean_data at hc
  obtain ⟨r1, hr1, rfl⟩ := List.mem_map.1 hc
  have hkeep := (List.mem_filter.1 hr1).2
  obtain ⟨r, hr, rfl⟩ := List.mem_map.1 (List.mem_filter.1 hr1).1
  rw [keepRow_fillUnknown] at hkeep
  unfold keepRow at hkeep
  rw [Bool.and_eq_true] at hkeep
  obtain ⟨s, hs⟩ := Option.isSome_iff_exists.1 hkeep.1
  refine ⟨rfl, rfl, ?_, ?_, ⟨r, hr, s, hs, ?_⟩, load_and_clean_length rows⟩
  · rw [deriveRow_year_added]
    cases (deriveRow (fillUnknown r)).date_added <;> simp
  · rw [deriveRow_month_added]
    cases (deriveRow (fillUnknown r)).date_added <;> simp
  · rw [deriveRow_date_added]
    show (r.date_added.map str_strip).bind to_datetime = to_datetime (str_strip s)
    rw [hs]
    rfl

/-- C9: the pipeline recognizes exactly two failure kinds at the top level. A
missing input file is reported with a printed message containing the path;
any other failure is reported with a printed description of the error; the
two messages are distinct; both are caught at the outermost level and
converted to a printed message, so `main_run` never propagates an error to
its caller, and on either failure no stage runs, so no artifact is
produced. -/
theorem c9_top_level_errors (filepath desc : String) (rows : List RawRecord) :
    main_run filepath (Except.ok rows)
      = Except.ok (["Analysis complete. Plots saved as PNG files."],
          stage_artifacts) ∧
    main_run filepath (Except.error PipelineError.fileNotFound)
      = Except.ok (["Error: File not found at " ++ filepath], []) ∧
    main_run filepath (Except.error (PipelineError.other desc))
      = Except.ok (["An error occurred: " ++ desc], []) ∧
    ("Error: File not found at " ++ filepath)
      ≠ ("An error occurred: " ++ desc) ∧
    (∀ lr : Except PipelineError (List RawRecord),
      ∃ out, main_run filepath lr = Except.ok out) := by
  refine ⟨rfl, rfl, rfl, ?_, ?_⟩
  · intro h
    have h0 : ("Error: File not found at " ++ filepath).data.headD 'x'
        = ("An error occurred: " ++ desc).data.headD 'x' := by rw [h]
    rw [String.data_append, String.data_append] at h0
    have hE : ("Error: File not found at ".data ++ filepath.data).headD 'x'
        = 'E' := rfl
    have hA : ("An error occurred: ".data ++ desc.data).headD 'x' = 'A' := rfl
    rw [hE, hA] at h0
    exact absurd h0 (by decide)
  · intro lr
    match lr with
    | .ok rows => exact ⟨_, rfl⟩
    | .error .fileNotFound => exact ⟨_, rfl⟩
    | .error (.other e) => exact ⟨_, rfl⟩

/-- Witness for C1 at the one-row table `[badDateRaw]`: the row survives the
drop (both raw fields present) even though its date does not parse. -/
theorem c1_row_drop_witness :
    deriveRow (fillUnknown badDateRaw) ∈ load_and_clean_data [badDateRaw] ∧
    ((deriveRow (fillUnknown badDateRaw)).rating ≠ none ∧
      (∃ r ∈ [badDateRaw], r.date_added ≠ none ∧ r.rating ≠ none ∧
        deriveRow (fillUnknown badDateRaw) = deriveRow (fillUnknown r)) ∧
      load_and_clean_data [badDateRaw]
        = load_and_clean_data
            ([badDateRaw].filter
              (fun r => r.date_added.isSome && r.rating.isSome)) ∧
      (load_and_clean_data [badDateRaw]).length
        = [badDateRaw].countP
            (fun r => r.date_added.isSome && r.rating.isSome)) :=
  ⟨by decide, c1_row_drop [badDateRaw] (deriveRow (fillUnknown badDateRaw)) (by decide)⟩

/-- Witness for C2 at the one-row table `[rawSample]`, whose date string
carries surrounding whitespace and parses to September 25, 2021. -/
theorem c2_derived_date_features_witness :
    cleanedSample ∈ load_and_clean_data [rawSample] ∧
    (cleanedSample.year_added = cleanedSample.date_added.map NLDate.year ∧
      cleanedSample.month_added
        = cleanedSample.date_added.map (fun dt => month_name dt.month) ∧
      (cleanedSample.year_added = none ↔ cleanedSample.date_added = none) ∧
      (cleanedSample.month_added = none ↔ cleanedSample.date_added = none) ∧
      (∃ r ∈ [rawSample], ∃ s, r.date_added = some s ∧
        cleanedSample.date_added = to_datetime (str_strip s)) ∧
      (load_and_clean_data [rawSample]).length
        = [rawSample].countP
            (fun r => r.date_added.isSome && r.rating.isSome)) :=
  ⟨by decide, c2_derived_date_features [rawSample] cleanedSample (by decide)⟩

/-- C3 counterexample: the claim universally asserts sum of per-genre counts
at least the row count, but a record whose genre field is null contributes
nothing, so a one-row table with a null genre field has genre-count sum 0,
below its row count 1. -/
theorem c3_counterexample :
    genre_count_sum [nullGenreRec] = 0 ∧
    ([nullGenreRec] : List CleanedRecord).length = 1 ∧
    ¬ (([nullGenreRec] : List CleanedRecord).length
        ≤ genre_count_sum [nullGenreRec]) := by
  decide

/-- C3 as amended: for every Cleaned Table in which every record has a
non-null genre field, the Genre Splitter's sum of per-genre counts is at
least the row count, with equality iff every record lists exactly one genre;
and (unconditionally) a record whose genre field is `Comedy, Drama`
contributes exactly the two entries `Comedy` and `Drama`, one count each. -/
theorem c3_genre_splitter (df : List CleanedRecord)
    (h : ∀ r ∈ df, r.listed_in ≠ none) :
    df.length ≤ genre_count_sum df ∧
    (genre_count_sum df = df.length ↔ ∀ r ∈ df, (genresOf r).length = 1) ∧
    (∀ r : CleanedRecord, r.listed_in = some "Comedy, Drama" →
      genresOf r = ["Comedy", "Drama"]) := by
  have hone : ∀ x ∈ df.map (fun r => (genresOf r).length), 1 ≤ x := by
    intro x hx
    obtain ⟨r, hr, rfl⟩ := List.mem_map.1 hx
    cases hlr : r.listed_in with
    | none => exact absurd hlr (h r hr)
    | some s => exact one_le_length_genresOf hlr
  refine ⟨?_, ?_, ?_⟩
  · rw [genre_count_sum_eq]
    have := length_le_sum_of_one_le hone
    rwa [List.length_map] at this
  · rw [genre_count_sum_eq]
    have hiff := sum_eq_length_iff_forall_one hone
    rw [List.length_map] at hiff
    rw [hiff]
    constructor
    · intro hall r hr
      exact hall _ (List.mem_map_of_mem _ hr)
    · intro hall x hx
      obtain ⟨r, hr, rfl⟩ := List.mem_map.1 hx
      exact hall r hr
  · intro r hlr
    unfold genresOf
    rw [hlr]
    decide

/-- Witness for C3 (amended) at a two-row table: one single-genre record and
one two-genre record (`cleanedSample` lists `Comedy, Drama`), so every genre
field is non-null and the hypothesis holds. -/
theorem c3_genre_splitter_witness :
    (∀ r ∈ [movieRow "90 min", cleanedSample], r.listed_in ≠ none) ∧
    (([movieRow "90 min", cleanedSample] : List CleanedRecord).length
        ≤ genre_count_sum [movieRow "90 min", cleanedSample] ∧
      (genre_count_sum [movieRow "90 min", cleanedSample]
          = ([movieRow "90 min", cleanedSample] : List CleanedRecord).length ↔
        ∀ r ∈ [movieRow "90 min", cleanedSample], (genresOf r).length = 1) ∧
      (∀ r : CleanedRecord, r.listed_in = some "Comedy, Drama" →
        genresOf r = ["Comedy", "Drama"])) :=
  ⟨by decide, c3_genre_splitter [movieRow "90 min", cleanedSample] (by decide)⟩

/-- C10: a record whose genre field is null contributes zero to every genre
count rather than a sentinel entry or an error, so the sum of all per-genre
counts equals the sum, over records with a non-null genre field, of the
number of genres each lists — and therefore can be smaller than the row
count, as the concrete one-row null-genre table shows. -/
theorem c10_null_genre_contribution :
    (∀ r : CleanedRecord, r.listed_in = none → genresOf r = []) ∧
    (∀ df : List CleanedRecord,
      genre_count_sum df
        = ((df.filter (fun r => r.listed_in.isSome)).map
            (fun r => (genresOf r).length)).sum) ∧
    genre_count_sum [nullGenreRec] = 0 ∧
    genre_count_sum [nullGenreRec]
      < ([nullGenreRec] : List CleanedRecord).length := by
  refine ⟨?_, ?_, by decide, by decide⟩
  · intro r h
    unfold genresOf
    rw [h]
  · intro df
    rw [genre_count_sum_eq, genre_sum_filter_isSome]

/-- C4 counterexample: the claim describes the Numeric Extractor as stripping
the *trailing* `" min"` suffix, but the code removes every occurrence of the
substring. On the duration `100 min min` the code yields 100, while the
claimed trailing-suffix semantics (`spec_analyze_runtime`) fails to convert
and yields an empty distribution. -/
theorem c4_counterexample :
    analyze_runtime [movieRow "100 min min"] = [100] ∧
    spec_analyze_runtime [movieRow "100 min min"] = [] := by
  decide

/-- C4 as amended: the Numeric Extractor first restricts the table to records
whose type is `Movie`, removes every occurrence of the substring `" min"`
from the duration (the code's `str.replace`, not only a trailing suffix),
converts the remainder with conversion failures becoming null, and excludes
those nulls from the distribution: a value is in the distribution exactly
when some Movie row's duration converts to it, so non-numeric and TV-show
rows never appear; and for the two-row Movie table with durations `90 min`
and `45 min` the distribution is exactly 90 and 45. -/
theorem c4_numeric_extractor (df : List CleanedRecord) (x : Nat) :
    (x ∈ analyze_runtime df ↔
      ∃ r ∈ df, r.type = "Movie" ∧ ∃ d, r.duration = some d ∧
        to_numeric (str_replace_min d) = some x) ∧
    analyze_runtime [movieRow "90 min", movieRow "45 min"] = [90, 45] := by
  constructor
  · unfold analyze_runtime
    constructor
    · intro hx
      obtain ⟨o, ho, hox⟩ := List.mem_filterMap.1 hx
      obtain ⟨r, hrm, rfl⟩ := List.mem_map.1 ho
      have hrf := List.mem_filter.1 hrm
      refine ⟨r, hrf.1, by simpa using hrf.2, ?_⟩
      cases hd : r.duration with
      | none =>
        rw [hd] at hox
        simp at hox
      | some d =>
        rw [hd] at hox
        exact ⟨d, rfl, by simpa using hox⟩
    · rintro ⟨r, hrdf, hmov, d, hd, hnum⟩
      refine List.mem_filterMap.2 ⟨some x, ?_, rfl⟩
      refine List.mem_map.2 ⟨r, List.mem_filter.2 ⟨hrdf, by simp [hmov]⟩, ?_⟩
      rw [hd]
      simpa using hnum
  · decide

/-- C5: for every Cleaned Table with at least 10 distinct `release_year`
values, the Top-N Ranker reports exactly 10 years, printed in descending
order by count; each reported pair is a year occurring in the table with its
exact record count; the reported years are distinct; every year not reported
has a count at most that of every reported year (so the reported years are
the 10 highest-count ones, ties resolved by the stable descending sort of
`value_counts`); and on the example table with 12 distinct years the report
is exactly the 10 highest-count pairs, excluding the 2 lowest-count years. -/
theorem c5_top_n_ranker (df : List CleanedRecord)
    (h : 10 ≤ ((df.map (fun r => r.release_year)).dedup).length) :
    (analyze_release_years df).length = 10 ∧
    (analyze_release_years df).Sorted countDesc ∧
    (∀ p ∈ analyze_release_years df,
      p.1 ∈ df.map (fun r => r.release_year) ∧
      p.2 = (df.map (fun r => r.release_year)).count p.1) ∧
    ((analyze_release_years df).map Prod.fst).Nodup ∧
    (∀ y ∈ df.map (fun r => r.release_year),
      y ∉ (analyze_release_years df).map Prod.fst →
      ∀ p ∈ analyze_release_years df,
        (df.map (fun r => r.release_year)).count y ≤ p.2) ∧
    analyze_release_years exampleYears12 = expectedTop10 := by
  refine ⟨?_, ?_, ?_, ?_, ?_, by decide⟩
  · unfold analyze_release_years
    rw [List.length_take, value_counts_length]
    omega
  · unfold analyze_release_years
    exact (value_counts_sorted _).sublist (List.take_sublist _ _)
  · rintro ⟨y, c⟩ hp
    have hmem : (y, c) ∈ value_counts (df.map (fun r => r.release_year)) :=
      (List.take_sublist _ _).mem hp
    have hvc := mem_value_counts.1 hmem
    exact ⟨hvc.1, hvc.2⟩
  · unfold analyze_release_years
    rw [List.map_take]
    exact (value_counts_keys_nodup _).sublist (List.take_sublist _ _)
  · unfold analyze_release_years
    intro y hy hnot p hp
    have hyc : (y, (df.map (fun r => r.release_year)).count y)
        ∈ value_counts (df.map (fun r => r.release_year)) :=
      mem_value_counts.2 ⟨hy, rfl⟩
    have hsorted := value_counts_sorted (df.map (fun r => r.release_year))
    rw [← List.take_append_drop 10
      (value_counts (df.map (fun r => r.release_year)))] at hyc hsorted
    rcases List.mem_append.1 hyc with htake | hdrop
    · exact absurd (List.mem_map_of_mem Prod.fst htake) hnot
    · exact (List.pairwise_append.1 hsorted).2.2 p hp _ hdrop

/-- Witness for C5 at `exampleYears12`, which has 12 distinct release
years. -/
theorem c5_top_n_ranker_witness :
    10 ≤ ((exampleYears12.map (fun r => r.release_year)).dedup).length ∧
    ((analyze_release_years exampleYears12).length = 10 ∧
      (analyze_release_years exampleYears12).Sorted countDesc ∧
      (∀ p ∈ analyze_release_years exampleYears12,
        p.1 ∈ exampleYears12.map (fun r => r.release_year) ∧
        p.2 = (exampleYears12.map (fun r => r.release_year)).count p.1) ∧
      ((analyze_release_years exampleYears12).map Prod.fst).Nodup ∧
      (∀ y ∈ exampleYears12.map (fun r => r.release_year),
        y ∉ (analyze_release_years exampleYears12).map Prod.fst →
        ∀ p ∈ analyze_release_years exampleYears12,
          (exampleYears12.map (fun r => r.release_year)).count y ≤ p.2) ∧
      analyze_release_years exampleYears12 = expectedTop10) :=
  ⟨by decide, c5_top_n_ranker exampleYears12 (by decide)⟩

end NetflixAnalysis
